import Mathlib

/-!
# chicken-guard: verification of the door-automation core

Shallow embedding of the chicken-guard repository (Python) in Lean 4.

Covered source:
* `src/config.py` — the numeric constants (door-state bit flags, relay levels,
  offsets, earliest-open table).
* `src/board.py` — `Board`: debounced reed reading (`IsReedClosed`),
  door motion (`SyncMoveDoor`, `StartMotor`, `StopMotor`, `StopDoor`),
  state persistence and reconciliation (`Load`, `CheckInitialState`),
  position queries (`IsDoorOpen`, `IsDoorClosed`), lights, and the
  save/notify plumbing (`_SetDoorState`, `_CallStateChangeHandler`).
* `src/controlserver.py` — `Controller`: manual commands and the automatic
  mode (`DisableAutomatic`, `EnableAutomatic`, the re-enable part of
  `JobTimer.DoDoorCheck`), and the state hub (`_BoardStateChanged`,
  `WaitForStateChange`).
* `src/sunrise.py` — `getSunTimes` (old API, present in the source), and a
  spec-modelled `GetSuntimes` (new API with the earliest-open clamp: called by
  `controlserver.py` and exercised by `tests/test_sunrise.py`, but the function
  itself is not present in `src/sunrise.py`).

Modelling conventions:
* GPIO sampling is supplied as data: a raw reed sample is a `Bool` that is
  `true` when the pin read the electrically-closed level
  (`GPIO.input(pin) == REED_CLOSED` in the source).
* Side effects (relay writes, state-file saves, change-handler notifications,
  log records) are collected in an explicit `Effects` record.
* Wall-clock time is passed as an explicit parameter (seconds, `Int`).
* The floating-point trigonometry of `sunrise.py` is abstracted as a function
  `diffSecs : Nat → Int` of the day of the year only — exactly the data flow of
  the source, where the trigonometric expressions read nothing but
  `day_of_year` and compile-time constants.
-/

namespace ChickenGuard

/-! ## Constants from `src/config.py` -/

/-- Source: `config.RELAIS_ON = 0` (relay energized). -/
def RELAIS_ON : Nat := 0
/-- Source: `config.RELAIS_OFF = 1`. -/
def RELAIS_OFF : Nat := 1
/-- Source: `config.MOVE_UP = 1` (direction-relay level for moving up). -/
def MOVE_UP : Nat := 1
/-- Source: `config.MOVE_DOWN = 0`. -/
def MOVE_DOWN : Nat := 0
/-- Source: `config.MOTOR_ON = PIN_RELAIS_1 = 40`. -/
def MOTOR_ON : Nat := 40
/-- Source: `config.MOVE_DIR = PIN_RELAIS_2 = 38`. -/
def MOVE_DIR : Nat := 38
/-- Source: `config.LIGHT_INDOOR = PIN_RELAIS_3 = 36`. -/
def LIGHT_INDOOR : Nat := 36
/-- Source: `config.LIGHT_OUTDOOR = PIN_RELAIS_4 = 31`. -/
def LIGHT_OUTDOOR : Nat := 31
/-- Source: `config.REED_UPPER = PIN_REED_1 = 13`. -/
def REED_UPPER : Nat := 13
/-- Source: `config.REED_LOWER = PIN_REED_2 = 11`. -/
def REED_LOWER : Nat := 11

/-- Source: `config.DOOR_NOT_MOVING = 0`. -/
def DOOR_NOT_MOVING : Nat := 0
/-- Source: `config.DOOR_MOVING_UP = 1`. -/
def DOOR_MOVING_UP : Nat := 1
/-- Source: `config.DOOR_MOVING_DOWN = 2`. -/
def DOOR_MOVING_DOWN : Nat := 2
/-- Source: `config.DOOR_MOVING = DOOR_MOVING_UP | DOOR_MOVING_DOWN = 3`. -/
def DOOR_MOVING : Nat := DOOR_MOVING_UP ||| DOOR_MOVING_DOWN
/-- Source: `config.DOOR_OPEN = 4`. -/
def DOOR_OPEN : Nat := 4
/-- Source: `config.DOOR_CLOSED = 8`. -/
def DOOR_CLOSED : Nat := 8

/-- Source: `config.DOOR_AUTO_OFF = 0` (automatic temporarily off). -/
def DOOR_AUTO_OFF : Int := 0
/-- Source: `config.DOOR_AUTO_ON = 1`. -/
def DOOR_AUTO_ON : Int := 1
/-- Source: `config.DOOR_AUTO_DEACTIVATED = -1` (automatic permanently off). -/
def DOOR_AUTO_DEACTIVATED : Int := -1
/-- Source: `config.DOOR_AUTOMATIC_OFFTIME = 30 * 60` seconds. -/
def DOOR_AUTOMATIC_OFFTIME : Int := 30 * 60

/-- Source: `config.DAWN_OFFSET = -30 * 60` seconds (negative: open before sunrise). -/
def DAWN_OFFSET : Int := -30 * 60
/-- Source: `config.DUSK_OFFSET = 15 * 60` seconds (close after sunset). -/
def DUSK_OFFSET : Int := 15 * 60

/-- Source: `config.EARLIEST_OPEN_TIMES` (`src/config.py` lines 132-140): per-weekday
`(hour, minute)` of the earliest door opening; key `0` is Monday.  The Python
dict has entries for `0..6` only, matching `datetime.weekday()`. -/
def EARLIEST_OPEN_TIMES (weekday : Fin 7) : Nat × Nat :=
  match weekday.val with
  | 0 => (5, 30)
  | 1 => (5, 30)
  | 2 => (5, 30)
  | 3 => (5, 30)
  | 4 => (5, 30)
  | _ => (7, 30)

/-! ## `Board.IsReedClosed` (`src/board.py` lines 626-656)

The source reads the raw pin 15 times (`for i in range(15)`), sleeping 50 ms
between reads.  We model the 15 raw reads as a `List Bool` (`true` = the read
returned `config.REED_CLOSED`); the sleeps have no semantic content.  The loop
body is translated verbatim: on a closed sample, if `triggered > 4` it returns
`True` at once, otherwise it increments `triggered`; open samples leave
`triggered` unchanged; after the 15th sample it returns `False`. -/

/-- The loop of `Board.IsReedClosed`, with `triggered` as accumulator. -/
def isReedClosedLoop : List Bool → Nat → Bool
  | [], _ => false
  | sample :: rest, triggered =>
    if sample then
      if triggered > 4 then true
      else isReedClosedLoop rest (triggered + 1)
    else isReedClosedLoop rest triggered

/-- Source: `Board.IsReedClosed`: debounced reading of one reed contact from its 15 raw
pin samples.  `samples.take 15` mirrors `for i in range(15)`. -/
def isReedClosed (samples : List Bool) : Bool :=
  isReedClosedLoop (samples.take 15) 0

/-- A 15-sample sequence with exactly 5 electrically-closed samples. -/
def fiveClosedSamples : List Bool :=
  [true, true, true, true, true,
   false, false, false, false, false,
   false, false, false, false, false]

/-! ## `Board` state and side effects (`src/board.py`)

`BoardState` carries the mutable attributes of `Board` that the door logic
reads or writes: `door_state`, the two light flags, and whether a state-change
handler is installed (`state_change_handler is not None`).  `Effects` collects
the side effects of one call: GPIO output writes in order, the number of
state-file saves (`Board.Save`), the number of change-handler invocations, and
the log records by severity. -/

/-- Severity of a log record (`logging` levels used by `board.py`). -/
inductive LogLevel where
  | debug
  | info
  | warning
  | error
deriving DecidableEq, Repr

/-- The mutable `Board` attributes relevant to the door logic. -/
structure BoardState where
  door_state : Nat
  light_state_indoor : Bool
  light_state_outdoor : Bool
  handler_set : Bool
deriving DecidableEq, Repr

/-- Observable side effects of a `Board` call. -/
structure Effects where
  gpioWrites : List (Nat × Nat)
  saves : Nat
  notifies : Nat
  logs : List LogLevel
deriving DecidableEq, Repr

/-- The empty effect. -/
def Effects.empty : Effects := ⟨[], 0, 0, []⟩

/-- Sequencing of effects. -/
def Effects.app (a b : Effects) : Effects :=
  ⟨a.gpioWrites ++ b.gpioWrites, a.saves + b.saves, a.notifies + b.notifies,
   a.logs ++ b.logs⟩

/-- A log-only effect. -/
def Effects.log (l : LogLevel) : Effects := ⟨[], 0, 0, [l]⟩

/-- Source: `Board._CallStateChangeHandler` (`src/board.py` lines 790-806): saves the
state via `Board.Save` (one file write, one debug record) and, if a handler is
installed, logs a debug record and invokes it once.  The handler body itself
(the `Controller` side) is modelled separately by `boardStateChanged`. -/
def callStateChangeHandler (st : BoardState) : Effects :=
  (Effects.log LogLevel.debug).app
    (if st.handler_set
     then ⟨[], 1, 1, [LogLevel.debug]⟩
     else ⟨[], 1, 0, []⟩)

/-- Source: `Board._SetDoorState` (`src/board.py` lines 499-508): sets `door_state` to
`new_state` and propagates via `_CallStateChangeHandler`; if old and new value
are identical, no action is taken. -/
def setDoorState (st : BoardState) (new_state : Nat) : BoardState × Effects :=
  if st.door_state ≠ new_state then
    let st2 := { st with door_state := new_state }
    (st2, callStateChangeHandler st2)
  else
    (st, Effects.empty)

/-- Source: `Board.IsDoorMoving` (`src/board.py` lines 690-699):
`bool(door_state & DOOR_MOVING)`. -/
def isDoorMoving (st : BoardState) : Bool :=
  st.door_state &&& DOOR_MOVING != 0

/-- Source: `Board.StartMotor` (`src/board.py` lines 510-527): one info record, set the
direction relay, energize the motor relay, then set the door state to the
matching moving variant. -/
def startMotor (st : BoardState) (direction : Nat) : BoardState × Effects :=
  let eff0 : Effects := ⟨[(MOVE_DIR, direction), (MOTOR_ON, RELAIS_ON)], 0, 0, [LogLevel.info]⟩
  let r := setDoorState st (if direction = MOVE_UP then DOOR_MOVING_UP else DOOR_MOVING_DOWN)
  (r.1, eff0.app r.2)

/-- Source: `Board.StopMotor` (`src/board.py` lines 529-540): one info record,
de-energize the motor relay, reset the direction relay to `MOVE_UP`, then set
the door state to `end_state`. -/
def stopMotor (st : BoardState) (end_state : Nat) : BoardState × Effects :=
  let eff0 : Effects := ⟨[(MOTOR_ON, RELAIS_OFF), (MOVE_DIR, MOVE_UP)], 0, 0, [LogLevel.info]⟩
  let r := setDoorState st end_state
  (r.1, eff0.app r.2)

/-- Source: `Board.StopDoor` (`src/board.py` lines 715-725): one info record, then
`StopMotor()` with the default end state `DOOR_NOT_MOVING`. -/
def stopDoor (st : BoardState) : BoardState × Effects :=
  let r := stopMotor st DOOR_NOT_MOVING
  (r.1, (Effects.log LogLevel.info).app r.2)

/-! ## `Board.SyncMoveDoor` (`src/board.py` lines 542-624)

Sampling environment of one motion: `preSamples` are the 15 raw reads of the
initial `IsReedClosed(reed_pin)` check, and `polls` holds one 15-read vector
per debounced poll the travel loop performs before `move_end_time` elapses
(the loop `while not reed_signaled and (move_end_time > time.time())` stops at
the first poll that reports closed, or when the time budget is exhausted —
i.e. when `polls` is exhausted).  `time.sleep(reed_offset)` has no semantic
content beyond keeping the motor running and is not modelled. -/

structure MoveEnv where
  preSamples : List Bool
  polls : List (List Bool)
deriving DecidableEq, Repr

/-- The end state of a motion: `DOOR_OPEN` when moving up, else `DOOR_CLOSED`
(the source treats every direction other than `MOVE_UP` as down). -/
def moveEndState (direction : Nat) : Nat :=
  if direction = MOVE_UP then DOOR_OPEN else DOOR_CLOSED

/-- Source: `Board.SyncMoveDoor`: returns whether the door was moved, the new board
state and the side effects.  Faithful to the source: first the debounced check
of the target reed (`can_move = not IsReedClosed(...)`), then — only if that
reed did not report closed — the persisted-state check
`(door_state & end_state) == 0`; if either forbids the move, an error is
logged and `False` returned without further action; then the already-moving
check (also error + `False`); otherwise the
motor is started, the travel loop polls the reed until it reports closed or
the time budget runs out, an info (contact) or warning (timeout) record is
logged, and `StopMotor(end_state)` finishes the motion with result `True`. -/
def syncMoveDoor (st : BoardState) (env : MoveEnv) (direction : Nat) :
    Bool × BoardState × Effects :=
  let end_state := moveEndState direction
  let can_move0 := ! isReedClosed env.preSamples
  let can_move := if can_move0 then st.door_state &&& end_state == 0 else false
  if ! can_move then
    (false, st, Effects.log LogLevel.error)
  else if isDoorMoving st then
    (false, st, Effects.log LogLevel.error)
  else
    let r1 := startMotor st direction
    let reed_signaled := env.polls.any isReedClosed
    let loopLog : Effects :=
      Effects.log (if reed_signaled then LogLevel.info else LogLevel.warning)
    let r2 := stopMotor r1.1 end_state
    (true, r2.1,
     ((Effects.log LogLevel.debug).app (r1.2.app (loopLog.app r2.2))))

/-! ## Position queries (`src/board.py` lines 658-688) -/

/-- Source: `Board.IsDoorOpen`: if the debounced upper reed does not report closed,
fall back to `bool(door_state & DOOR_OPEN)`; otherwise `True`.
`upperSamples` are the 15 raw reads of the upper reed. -/
def isDoorOpen (st : BoardState) (upperSamples : List Bool) : Bool :=
  if ! isReedClosed upperSamples then st.door_state &&& DOOR_OPEN != 0
  else true

/-- Source: `Board.IsDoorClosed`: as `isDoorOpen`, with the lower reed and
`DOOR_CLOSED`. -/
def isDoorClosed (st : BoardState) (lowerSamples : List Bool) : Bool :=
  if ! isReedClosed lowerSamples then st.door_state &&& DOOR_CLOSED != 0
  else true

/-! ## Persistence and startup reconciliation (`src/board.py` lines 310-390) -/

/-- What `Board.Load` can find: no state file, an unreadable file, or a JSON
record whose `door_state` entry may be absent. -/
inductive FileContent where
  | fileMissing
  | fileCorrupt
  | fileData (door_state_entry : Option Nat)
deriving DecidableEq, Repr

/-- Source: `Board.Load` (`src/board.py` lines 367-390): returns whether the file was
loaded; on success sets `door_state` to `data.get('door_state',
DOOR_NOT_MOVING)`, otherwise leaves the state untouched. -/
def load (st : BoardState) (f : FileContent) : Bool × BoardState :=
  match f with
  | .fileMissing => (false, st)
  | .fileCorrupt => (false, st)
  | .fileData e => (true, { st with door_state := e.getD DOOR_NOT_MOVING })

/-- Source: `Board.CheckInitialState` (`src/board.py` lines 310-336): load the state
file, read the debounced upper reed; if the file was loaded and the reed does
not report closed, take the persisted `DOOR_OPEN` flag instead; finally set
`door_state` to `DOOR_OPEN` or `DOOR_CLOSED` accordingly. -/
def checkInitialState (st : BoardState) (f : FileContent)
    (upperSamples : List Bool) : BoardState :=
  let r := load st f
  let door_is_open := isReedClosed upperSamples
  let door_is_open :=
    if r.1 && ! door_is_open then r.2.door_state &&& DOOR_OPEN != 0
    else door_is_open
  { r.2 with door_state := if door_is_open then DOOR_OPEN else DOOR_CLOSED }

/-! ## Lights (`src/board.py` lines 451-475) -/

/-- Source: `Board.SwitchIndoorLight`: set the flag, drive the relay, log info, notify. -/
def boardSwitchIndoorLight (st : BoardState) (swon : Bool) : BoardState × Effects :=
  let st2 := { st with light_state_indoor := swon }
  (st2,
   (⟨[(LIGHT_INDOOR, if swon then RELAIS_ON else RELAIS_OFF)], 0, 0,
     [LogLevel.info]⟩ : Effects).app (callStateChangeHandler st2))

/-- Source: `Board.SwitchOutdoorLight`: as indoor, with the outdoor relay and flag. -/
def boardSwitchOutdoorLight (st : BoardState) (swon : Bool) : BoardState × Effects :=
  let st2 := { st with light_state_outdoor := swon }
  (st2,
   (⟨[(LIGHT_OUTDOOR, if swon then RELAIS_ON else RELAIS_OFF)], 0, 0,
     [LogLevel.info]⟩ : Effects).app (callStateChangeHandler st2))

/-! ## `Controller` and the automatic mode (`src/controlserver.py`)

`CtrlState` carries the `Controller` attributes the claims are about.
`_UpdateBoardState` only republishes the state to the hub (modelled separately
below); it changes none of these attributes, so it needs no representation
here. -/

structure CtrlState where
  automatic : Int
  automatic_enable_time : Int
  board : BoardState
deriving DecidableEq, Repr

/-- Source: `Controller.DisableAutomatic` (`src/controlserver.py` lines 723-749): a
no-op when the automatic is permanently deactivated; with `forever` it becomes
permanently deactivated; otherwise the automatic goes temporarily off with
re-enable deadline `now + DOOR_AUTOMATIC_OFFTIME`. -/
def disableAutomatic (st : CtrlState) (forever : Bool) (now : Int) : CtrlState :=
  if st.automatic = DOOR_AUTO_DEACTIVATED then st
  else if forever then { st with automatic := DOOR_AUTO_DEACTIVATED }
  else { st with
         automatic := DOOR_AUTO_OFF,
         automatic_enable_time := now + DOOR_AUTOMATIC_OFFTIME }

/-- Source: `Controller.EnableAutomatic` (`src/controlserver.py` lines 751-761). -/
def enableAutomatic (st : CtrlState) : CtrlState :=
  if st.automatic = DOOR_AUTO_ON then st
  else { st with automatic := DOOR_AUTO_ON, automatic_enable_time := -1 }

/-- Source: `Controller.OpenDoor` (`src/controlserver.py` lines 560-578):
`DisableAutomatic()` then `board.OpenDoor()` (= `SyncMoveDoor(MOVE_UP)`). -/
def ctrlOpenDoor (st : CtrlState) (now : Int) (env : MoveEnv) : Bool × CtrlState :=
  let st1 := disableAutomatic st false now
  let r := syncMoveDoor st1.board env MOVE_UP
  (r.1, { st1 with board := r.2.1 })

/-- Source: `Controller.CloseDoor` (`src/controlserver.py` lines 540-558):
`DisableAutomatic()` then `board.CloseDoor()` (= `SyncMoveDoor(MOVE_DOWN)`). -/
def ctrlCloseDoor (st : CtrlState) (now : Int) (env : MoveEnv) : Bool × CtrlState :=
  let st1 := disableAutomatic st false now
  let r := syncMoveDoor st1.board env MOVE_DOWN
  (r.1, { st1 with board := r.2.1 })

/-- Source: `Controller.StopDoor` (`src/controlserver.py` lines 580-592):
`board.StopDoor()` then `DisableAutomatic()`. -/
def ctrlStopDoor (st : CtrlState) (now : Int) : CtrlState :=
  let r := stopDoor st.board
  disableAutomatic { st with board := r.1 } false now

/-- Source: `Controller.SwitchIndoorLight` (`src/controlserver.py` lines 492-504):
forwards to `board.SwitchIndoorLight` and returns `swon`; it does not touch
the automatic mode. -/
def ctrlSwitchIndoorLight (st : CtrlState) (swon : Bool) : Bool × CtrlState :=
  let r := boardSwitchIndoorLight st.board swon
  (swon, { st with board := r.1 })

/-- Source: `Controller.SwitchOutdoorLight` (`src/controlserver.py` lines 506-518). -/
def ctrlSwitchOutdoorLight (st : CtrlState) (swon : Bool) : Bool × CtrlState :=
  let r := boardSwitchOutdoorLight st.board swon
  (swon, { st with board := r.1 })

/-- The automatic-mode handling at the head of `JobTimer.DoDoorCheck`
(`src/controlserver.py` lines 284-289): when the automatic is temporarily off
and the re-enable deadline `automatic_enable_time <= now` has been reached,
`EnableAutomatic()` is called.  The remainder of `DoDoorCheck` (the actual
open/close decision) goes through `sunrise.GetDoorAction`, which is not part
of the door-automatic claim modelled here. -/
def doDoorCheckAutomatic (st : CtrlState) (now : Int) : CtrlState :=
  if st.automatic = DOOR_AUTO_OFF then
    if st.automatic_enable_time ≤ now then enableAutomatic st else st
  else st

/-! ## The state hub (`src/controlserver.py` lines 675-706)

`Controller` keeps `self._state = (changed, snapshot)` under a lock.  The
snapshot dictionary is opaque to the hub logic (it is built by
`Board.GetState` plus `_AddStateInfo`); it is abstracted as a `Nat`.  The
blocking wait and the condition variable are sequentialized: a call to
`waitForStateChange` models one waiter waking up (after a notification or
after its timeout) and inspecting the pair. -/

structure HubState where
  changed : Bool
  snapshot : Nat
deriving DecidableEq, Repr

/-- Source: `Controller._BoardStateChanged`: store `(True, state)` and notify; the
previous hub content is overwritten whatever it was. -/
def boardStateChanged (_h : HubState) (s : Nat) : HubState :=
  { changed := true, snapshot := s }

/-- Source: `Controller.WaitForStateChange` at wakeup: read `(notified, state)`; if
`notified`, reset the stored pair to `(False, state)`; return
`(notified, state)`.  First component: the returned pair; second: the hub
state afterwards. -/
def waitForStateChange (h : HubState) : (Bool × Nat) × HubState :=
  let notified := h.changed
  let state := h.snapshot
  if notified then ((notified, state), { changed := false, snapshot := state })
  else ((notified, state), h)

/-! ## Solar times (`src/sunrise.py`)

`getSunTimes(when)` (lines 46-65) computes, for the calendar date of `when`:

* `day_of_year = when.timetuple().tm_yday`;
* `is_dst = time.localtime(time.mktime(when.timetuple())).tm_isdst > 0` —
  this consults the **system timezone at the full timestamp** `when`, not just
  its date;
* `diff` — hours, from closed-form trigonometry whose only input is
  `day_of_year` (`sunDeclination`, `sunTimeDiff`, `localTimeDiff` read nothing
  else); abstracted here as `diffSecs : Nat → Int` in seconds;
* `midday = when.replace(hour = 12 + (1 if is_dst else 0), minute=0, ...)`;
* returns `(midday - diff + DAWN_OFFSET, midday + diff + DUSK_OFFSET)`.

Both returned instants lie on `when`'s own date, so they are represented as
signed seconds relative to the local midnight of that date. -/

/-- A naive local date-time at minute resolution (`datetime.datetime`). -/
structure PyDT where
  year : Nat
  month : Nat
  day : Nat
  hour : Nat
  minute : Nat
deriving DecidableEq, Repr

/-- Gregorian leap-year rule (as used by `datetime.timetuple`). -/
def isLeapYear (y : Nat) : Bool :=
  (y % 4 == 0 && y % 100 != 0) || (y % 400 == 0)

/-- Days in the months strictly before month `m` (1-based). -/
def cumDaysBeforeMonth (leap : Bool) (m : Nat) : Nat :=
  (([31, if leap then 29 else 28, 31, 30, 31, 30,
     31, 31, 30, 31, 30, 31] : List Nat).take (m - 1)).sum

/-- Source: `when.timetuple().tm_yday`: the 1-based day of the year. -/
def dayOfYear (d : PyDT) : Nat :=
  cumDaysBeforeMonth (isLeapYear d.year) d.month + d.day

/-- Source: `sunrise.getSunTimes` (`src/sunrise.py` lines 46-65).  `isDst` abstracts
the system timezone lookup (`tm_isdst > 0` at the full timestamp `when`);
`diffSecs` abstracts the floating-point trigonometry, which is a function of
`day_of_year` alone.  Returns both instants as seconds relative to the local
midnight of `when`'s date, in source order: first `midday - diff` shifted by
`DAWN_OFFSET`, then `midday + diff` shifted by `DUSK_OFFSET`. -/
def getSunTimes (when : PyDT) (isDst : PyDT → Bool) (diffSecs : Nat → Int) :
    Int × Int :=
  let yday := dayOfYear when
  let diff := diffSecs yday
  let midday : Int := (12 + (if isDst when then 1 else 0)) * 3600
  (midday - diff + DAWN_OFFSET, midday + diff + DUSK_OFFSET)

/-- Lexicographic key of a date-time within one year. -/
def dtKey (d : PyDT) : Nat :=
  ((d.month * 100 + d.day) * 100 + d.hour) * 100 + d.minute

/-- The daylight-saving flag of the Europe/Berlin timezone for naive local
timestamps of the year 2018, as `time.localtime(time.mktime(...)).tm_isdst > 0`
reports it on a machine configured for that zone (the repository's location
constants, `config.LATITUDE`/`LONGITUDE`, lie in Germany): DST runs from
March 25, 03:00 local (clocks jump 02:00→03:00) to October 28, 03:00 local
(clocks fall back 03:00→02:00). -/
def berlinIsDst2018 (d : PyDT) : Bool :=
  d.year == 2018 && dtKey ⟨2018, 3, 25, 3, 0⟩ ≤ dtKey d
    && dtKey d < dtKey ⟨2018, 10, 28, 3, 0⟩

/-- Seconds after local midnight of the weekday's earliest-open time from
`config.EARLIEST_OPEN_TIMES`. -/
def earliestOpenSecs (weekday : Fin 7) : Int :=
  (((EARLIEST_OPEN_TIMES weekday).1 * 60 + (EARLIEST_OPEN_TIMES weekday).2) * 60 : Nat)

/-- Modelled from the spec: `sunrise.GetSuntimes` — the successor of
`getSunTimes` that derives the door open/close times.  It is called by
`controlserver.py` (`JobTimer.DoSunriseCheck`, `JobTimer._run`) and exercised
by `src/tests/test_sunrise.py` (whose `_exp_times` helper encodes the same
rule), but the function itself is not present in `src/sunrise.py`.  Following
the spec §4.4: "Open time = sunrise + dawn-offset, clamped to be no earlier
than the weekday's earliest-open time.  Close time = sunset + dusk-offset."
Inputs and outputs are seconds after the local midnight of the day in
question; `weekday` is `datetime.weekday()` (0 = Monday). -/
def GetSuntimes (weekday : Fin 7) (sunriseSecs sunsetSecs : Int) : Int × Int :=
  let earliest := earliestOpenSecs weekday
  let openT := sunriseSecs + DAWN_OFFSET
  let openT := if openT < earliest then earliest else openT
  (openT, sunsetSecs + DUSK_OFFSET)

/-! ## Concrete states used in counterexamples and witnesses -/

/-- A board whose persisted state says Closed, lights off, handler installed. -/
def closedBoard : BoardState := ⟨DOOR_CLOSED, false, false, true⟩

/-- A motion environment whose target reed reads closed on all 15 pre-check
samples and whose travel loop never sees the contact. -/
def reedStuckEnv : MoveEnv := ⟨List.replicate 15 true, []⟩

/-- A motion environment with a silent reed: pre-check open, and no poll of
the travel loop reports closed (travel timeout). -/
def silentReedEnv : MoveEnv := ⟨List.replicate 15 false, [List.replicate 15 false]⟩

/-- A board in the startup state of `Board.__init__` before
`CheckInitialState` (door `DOOR_NOT_MOVING`, no handler yet). -/
def freshBoard : BoardState := ⟨DOOR_NOT_MOVING, false, false, false⟩

/-- A controller with active automatic. -/
def autoOnCtrl : CtrlState := ⟨DOOR_AUTO_ON, -1, closedBoard⟩

/-- A controller with the automatic temporarily off and re-enable deadline 5. -/
def autoOffCtrl : CtrlState := ⟨DOOR_AUTO_OFF, 5, closedBoard⟩

/-! # Theorems for the claims -/

/-- With accumulator `t`, the loop of `Board.IsReedClosed` returns `true` iff
`count true + min t 5 ≥ 6` (the accumulator saturates at 5: once
`triggered > 4` holds, the next closed sample triggers the early return). -/
theorem isReedClosedLoop_iff (samples : List Bool) (t : Nat) :
    isReedClosedLoop samples t = true ↔ samples.count true + min t 5 ≥ 6 := by
  induction samples generalizing t with
  | nil => simp [isReedClosedLoop]
  | cons s rest ih =>
    cases s with
    | false =>
      simp [isReedClosedLoop, ih, List.count_cons]
    | true =>
      by_cases ht : t > 4
      · have hmin : min t 5 = 5 := by omega
        simp [isReedClosedLoop, ht, List.count_cons, hmin]
      · have hmin : min t 5 = t := by omega
        have hmin' : min (t + 1) 5 = t + 1 := by omega
        simp [isReedClosedLoop, ht, ih, List.count_cons, hmin, hmin']
        omega

/-- Characterization of the debounce vote: over the 15 raw samples,
`Board.IsReedClosed` returns closed iff at least 6 (not 5) of them read
closed. -/
theorem isReedClosed_iff (samples : List Bool) :
    isReedClosed samples = true ↔ (samples.take 15).count true ≥ 6 := by
  have h := isReedClosedLoop_iff (samples.take 15) 0
  simpa [isReedClosed] using h

/-- C1: the claim states that `Board.IsReedClosed` returns Closed iff at least
5 of the 15 raw samples read as electrically closed.  The docstring of
`Board.IsReedClosed` (`src/board.py` line ~631) says the same ("Wenn
mindestens 5x der Kontakt als geschlossen ermittelt wurde"), but the
implemented test `triggered > 4` fires only on the sixth closed sample, so a
sequence with exactly 5 closed samples yields Open: the code contradicts its
own documentation.  This theorem evaluates the embedded loop at such a failing
input and shows the actual threshold is 6. -/
theorem isReedClosed_five_of_fifteen_bug :
    fiveClosedSamples.length = 15 ∧
    fiveClosedSamples.count true = 5 ∧
    isReedClosed fiveClosedSamples = false ∧
    isReedClosed (true :: fiveClosedSamples) = true := by
  decide

/-- Source: `_SetDoorState` performs no GPIO write in either branch. -/
theorem setDoorState_gpioWrites (st : BoardState) (n : Nat) :
    (setDoorState st n).2.gpioWrites = [] := by
  by_cases h : st.door_state = n <;> by_cases hh : st.handler_set <;>
    simp [setDoorState, callStateChangeHandler, Effects.app, Effects.log,
      Effects.empty, h, hh]

/-- After `_SetDoorState`, `door_state` equals the requested value (in the
no-op branch the old value already equals it). -/
theorem setDoorState_door (st : BoardState) (n : Nat) :
    (setDoorState st n).1.door_state = n := by
  by_cases h : st.door_state = n <;> simp [setDoorState, h]

/-- Source: `_SetDoorState` never logs at error severity. -/
theorem setDoorState_no_error (st : BoardState) (n : Nat) :
    LogLevel.error ∉ (setDoorState st n).2.logs := by
  by_cases h : st.door_state = n <;> by_cases hh : st.handler_set <;>
    simp [setDoorState, callStateChangeHandler, Effects.app, Effects.log,
      Effects.empty, h, hh]

/-- C2 counterexample: the claim says a motion command fails exactly when the
door is already moving or the target contact is asserted *and* the persisted
state agrees with that end-stop.  Against the code the two sensor conditions
are a disjunction, not a conjunction: here the door is not moving, the upper
contact is (falsely) asserted, and the persisted state is `DOOR_CLOSED` — it
does *not* agree with the upper end-stop — yet `SyncMoveDoor(MOVE_UP)` fails.
The claim predicts that this motion is started; the code rejects it. -/
theorem syncMoveDoor_conjunction_counterexample :
    isDoorMoving closedBoard = false ∧
    isReedClosed reedStuckEnv.preSamples = true ∧
    closedBoard.door_state &&& moveEndState MOVE_UP = 0 ∧
    (syncMoveDoor closedBoard reedStuckEnv MOVE_UP).1 = false := by
  decide

/-- C2 (amended): `Board.SyncMoveDoor` returns a failure outcome — leaving the
board state untouched and producing only an error log record, with no relay
write, no state-file save and no notification — exactly when the door is
already moving, **or** the target end-stop contact is debounce-asserted,
**or** the persisted door state carries the target end-state flag (the
disjunction replaces the claim's conjunction); in every other starting state
the motion is started (direction relay, then motor-on relay). -/
theorem syncMoveDoor_reject_exactly (st : BoardState) (env : MoveEnv) (direction : Nat) :
    ((syncMoveDoor st env direction).1 = false ↔
      (isDoorMoving st = true ∨ isReedClosed env.preSamples = true ∨
        st.door_state &&& moveEndState direction ≠ 0)) ∧
    ((syncMoveDoor st env direction).1 = false →
      syncMoveDoor st env direction = (false, st, Effects.log LogLevel.error)) ∧
    ((syncMoveDoor st env direction).1 = true →
      (syncMoveDoor st env direction).2.2.gpioWrites =
        [(MOVE_DIR, direction), (MOTOR_ON, RELAIS_ON),
         (MOTOR_ON, RELAIS_OFF), (MOVE_DIR, MOVE_UP)]) := by
  cases hb1 : isReedClosed env.preSamples <;>
    by_cases hb2 : st.door_state &&& moveEndState direction = 0 <;>
      cases hb3 : isDoorMoving st <;>
        simp [syncMoveDoor, hb1, hb2, hb3, startMotor, stopMotor,
          Effects.app, Effects.log, setDoorState_gpioWrites]

/-- C2 witness: applies `syncMoveDoor_reject_exactly` at the concrete stuck
state, discharging the failure hypothesis there. -/
theorem syncMoveDoor_reject_exactly_witness :
    syncMoveDoor closedBoard reedStuckEnv MOVE_UP =
      (false, closedBoard, Effects.log LogLevel.error) := by
  have h := syncMoveDoor_reject_exactly closedBoard reedStuckEnv MOVE_UP
  exact h.2.1 (by decide)

/-- C4: if during a commanded motion no poll of the target end-stop contact
reports closed within the time budget (travel timeout), the motor is stopped
anyway (`MOTOR_ON` relay de-energized), the door position is nevertheless set
to the commanded end state (`DOOR_OPEN` when moving up, `DOOR_CLOSED` when
moving down), the call returns success, and a warning — but no error — is
recorded. -/
theorem syncMoveDoor_timeout_fallback (st : BoardState) (env : MoveEnv) (direction : Nat)
    (hpre : isReedClosed env.preSamples = false)
    (hpersist : st.door_state &&& moveEndState direction = 0)
    (hmoving : isDoorMoving st = false)
    (htimeout : env.polls.any isReedClosed = false) :
    (syncMoveDoor st env direction).1 = true ∧
    (syncMoveDoor st env direction).2.1.door_state =
      (if direction = MOVE_UP then DOOR_OPEN else DOOR_CLOSED) ∧
    LogLevel.warning ∈ (syncMoveDoor st env direction).2.2.logs ∧
    LogLevel.error ∉ (syncMoveDoor st env direction).2.2.logs ∧
    (MOTOR_ON, RELAIS_OFF) ∈ (syncMoveDoor st env direction).2.2.gpioWrites := by
  simp only [moveEndState] at hpersist
  simp [syncMoveDoor, moveEndState, hpre, hpersist, hmoving, htimeout,
    startMotor, stopMotor, Effects.app, Effects.log, setDoorState_gpioWrites,
    setDoorState_door, setDoorState_no_error]

/-- C4 witness: a board at rest with silent reeds, moved up; the motion times
out, reports success and ends with the door assumed open. -/
theorem syncMoveDoor_timeout_fallback_witness :
    (syncMoveDoor freshBoard silentReedEnv MOVE_UP).1 = true ∧
    (syncMoveDoor freshBoard silentReedEnv MOVE_UP).2.1.door_state = DOOR_OPEN ∧
    LogLevel.warning ∈ (syncMoveDoor freshBoard silentReedEnv MOVE_UP).2.2.logs := by
  have h := syncMoveDoor_timeout_fallback freshBoard silentReedEnv MOVE_UP
    (by decide) (by decide) (by decide) (by decide)
  exact ⟨h.1, by simpa using h.2.1, h.2.2.1⟩

/-- C3 counterexample: the claim says every externally-issued manual door or
light command sets the automatic mode to temporarily-off with a re-enable
deadline.  `Controller.SwitchIndoorLight` does not call `DisableAutomatic`:
issued with the automatic active, it leaves the mode `DOOR_AUTO_ON` and the
deadline untouched. -/
theorem switchIndoorLight_keeps_automatic_counterexample :
    (ctrlSwitchIndoorLight autoOnCtrl true).2.automatic = DOOR_AUTO_ON ∧
    (ctrlSwitchIndoorLight autoOnCtrl true).2.automatic_enable_time = -1 ∧
    DOOR_AUTO_ON ≠ DOOR_AUTO_OFF := by
  decide

/-- C3 (amended): the manual **door** commands (`Controller.OpenDoor`,
`CloseDoor`, `StopDoor`) set the automatic mode to temporarily-off with
re-enable deadline equal to the command time plus
`config.DOOR_AUTOMATIC_OFFTIME`, provided the automatic is not permanently
deactivated; the **light** commands leave the automatic mode and deadline
unchanged; and whenever the automatic is temporarily-off and the scheduler's
door check runs at or past the deadline, the automatic returns to on. -/
theorem manual_commands_automatic_spec (st : CtrlState) (now : Int)
    (env : MoveEnv) (swon : Bool) :
    (st.automatic ≠ DOOR_AUTO_DEACTIVATED →
      ((ctrlOpenDoor st now env).2.automatic = DOOR_AUTO_OFF ∧
       (ctrlOpenDoor st now env).2.automatic_enable_time =
         now + DOOR_AUTOMATIC_OFFTIME) ∧
      ((ctrlCloseDoor st now env).2.automatic = DOOR_AUTO_OFF ∧
       (ctrlCloseDoor st now env).2.automatic_enable_time =
         now + DOOR_AUTOMATIC_OFFTIME) ∧
      ((ctrlStopDoor st now).automatic = DOOR_AUTO_OFF ∧
       (ctrlStopDoor st now).automatic_enable_time =
         now + DOOR_AUTOMATIC_OFFTIME)) ∧
    ((ctrlSwitchIndoorLight st swon).2.automatic = st.automatic ∧
     (ctrlSwitchIndoorLight st swon).2.automatic_enable_time =
       st.automatic_enable_time ∧
     (ctrlSwitchOutdoorLight st swon).2.automatic = st.automatic ∧
     (ctrlSwitchOutdoorLight st swon).2.automatic_enable_time =
       st.automatic_enable_time) ∧
    (st.automatic = DOOR_AUTO_OFF → st.automatic_enable_time ≤ now →
      (doDoorCheckAutomatic st now).automatic = DOOR_AUTO_ON) := by
  refine ⟨fun hact => ?_, ?_, fun hoff hdl => ?_⟩
  · refine ⟨⟨?_, ?_⟩, ⟨?_, ?_⟩, ?_, ?_⟩ <;>
      simp [ctrlOpenDoor, ctrlCloseDoor, ctrlStopDoor, disableAutomatic, hact]
  · simp [ctrlSwitchIndoorLight, ctrlSwitchOutdoorLight]
  · simp [doDoorCheckAutomatic, hoff, hdl, enableAutomatic,
      DOOR_AUTO_OFF, DOOR_AUTO_ON]

/-- C3 witness: applies `manual_commands_automatic_spec` at a controller with
the automatic temporarily off (deadline 5) at time 10, discharging every
hypothesis there. -/
theorem manual_commands_automatic_spec_witness :
    (ctrlOpenDoor autoOffCtrl 10 reedStuckEnv).2.automatic = DOOR_AUTO_OFF ∧
    (ctrlOpenDoor autoOffCtrl 10 reedStuckEnv).2.automatic_enable_time =
      10 + DOOR_AUTOMATIC_OFFTIME ∧
    (doDoorCheckAutomatic autoOffCtrl 10).automatic = DOOR_AUTO_ON := by
  have h := manual_commands_automatic_spec autoOffCtrl 10 reedStuckEnv true
  exact ⟨(h.1 (by decide)).1.1, (h.1 (by decide)).1.2,
    h.2.2 (by decide) (by decide)⟩

/-- C7: `Controller.WaitForStateChange` at wakeup returns the stored
`(changed, snapshot)` pair and leaves the hub with the flag cleared (a no-op
when it already was clear, so a timeout wakeup clears nothing); hence a second
call with no intervening mutation returns `false`, and every published
mutation (`_BoardStateChanged`) sets the flag so that the next returning
waiter observes `(true, snapshot)`. -/
theorem waitForStateChange_latch (h : HubState) (s : Nat) :
    waitForStateChange h = ((h.changed, h.snapshot), ⟨false, h.snapshot⟩) ∧
    (waitForStateChange (waitForStateChange h).2).1.1 = false ∧
    waitForStateChange (boardStateChanged h s) = ((true, s), ⟨false, s⟩) ∧
    (boardStateChanged h s).changed = true := by
  obtain ⟨c, sn⟩ := h
  cases c <;> simp [waitForStateChange, boardStateChanged]

/-- C8: after `Board.CheckInitialState` the door state is exactly `DOOR_OPEN`
or `DOOR_CLOSED`: `DOOR_OPEN` when the upper contact is debounce-closed (the
live sensor wins); otherwise, when the state file was successfully loaded,
the persisted value's `DOOR_OPEN` flag decides; otherwise (no file, or an
unreadable one) the door is assumed `DOOR_CLOSED`.  The pre-existing
in-memory state plays no role. -/
theorem checkInitialState_reconciliation (st : BoardState) (f : FileContent)
    (us : List Bool) :
    ((checkInitialState st f us).door_state = DOOR_OPEN ∨
     (checkInitialState st f us).door_state = DOOR_CLOSED) ∧
    (checkInitialState st f us).door_state =
      (if isReedClosed us then DOOR_OPEN
       else
         match f with
         | FileContent.fileData e =>
             if (e.getD DOOR_NOT_MOVING) &&& DOOR_OPEN ≠ 0 then DOOR_OPEN
             else DOOR_CLOSED
         | _ => DOOR_CLOSED) := by
  cases f with
  | fileMissing => cases hr : isReedClosed us <;> simp [checkInitialState, load, hr]
  | fileCorrupt => cases hr : isReedClosed us <;> simp [checkInitialState, load, hr]
  | fileData e =>
    cases hr : isReedClosed us <;>
      by_cases he : (e.getD DOOR_NOT_MOVING) &&& DOOR_OPEN = 0 <;>
        simp [checkInitialState, load, hr, he, bne_iff_ne]

/-- C9: `Board.IsDoorOpen` returns true iff the upper contact is
debounce-closed or the stored door state carries the `DOOR_OPEN` flag;
symmetrically `Board.IsDoorClosed` with the lower contact and `DOOR_CLOSED`.
Both are total Boolean queries: when the contact is not asserted they fall
back to the persisted flag instead of reporting an unknown outcome. -/
theorem doorQueries_fallback (st : BoardState) (us ls : List Bool) :
    (isDoorOpen st us = true ↔
      (isReedClosed us = true ∨ st.door_state &&& DOOR_OPEN ≠ 0)) ∧
    (isDoorClosed st ls = true ↔
      (isReedClosed ls = true ∨ st.door_state &&& DOOR_CLOSED ≠ 0)) := by
  cases h1 : isReedClosed us <;> cases h2 : isReedClosed ls <;>
    simp [isDoorOpen, isDoorClosed, h1, h2]

/-- C10: `Board._SetDoorState` with the current value is a complete no-op (no
state change, no file save, no notification); on a genuine transition it
saves once and notifies iff a handler is installed; consequently
`Board.StopDoor` issued when the door is already `DOOR_NOT_MOVING` publishes
no change (no save, no notification, board state untouched). -/
theorem setDoorState_noop_frame (st : BoardState) (n : Nat) :
    setDoorState st st.door_state = (st, Effects.empty) ∧
    (n ≠ st.door_state →
      (setDoorState st n).2.saves = 1 ∧
      (setDoorState st n).2.notifies = (if st.handler_set then 1 else 0)) ∧
    (st.door_state = DOOR_NOT_MOVING →
      (stopDoor st).1 = st ∧ (stopDoor st).2.saves = 0 ∧
      (stopDoor st).2.notifies = 0) := by
  refine ⟨?_, fun hne => ?_, fun hnm => ?_⟩
  · simp [setDoorState, Effects.empty]
  · have h : ¬ (st.door_state = n) := fun hc => hne hc.symm
    by_cases hh : st.handler_set <;>
      simp [setDoorState, h, callStateChangeHandler, Effects.app,
        Effects.log, hh]
  · by_cases hh : st.handler_set <;>
      simp [stopDoor, stopMotor, setDoorState, hnm, callStateChangeHandler,
        Effects.app, Effects.log, Effects.empty, hh]

/-- C10 witness: applies `setDoorState_noop_frame` at the fresh board
(door `DOOR_NOT_MOVING`), discharging both hypotheses there. -/
theorem setDoorState_noop_frame_witness :
    setDoorState freshBoard freshBoard.door_state = (freshBoard, Effects.empty) ∧
    (setDoorState freshBoard 4).2.saves = 1 ∧
    (stopDoor freshBoard).2.saves = 0 ∧
    (stopDoor freshBoard).2.notifies = 0 := by
  have h := setDoorState_noop_frame freshBoard 4
  exact ⟨h.1, (h.2.1 (by decide)).1, (h.2.2 (by decide)).2.1,
    (h.2.2 (by decide)).2.2⟩

/-- C5: for every weekday and every pair of solar instants, the door open
time computed by the (spec-modelled) `sunrise.GetSuntimes` equals the
sunrise plus the configured dawn offset, clamped to be no earlier than the
weekday's configured earliest-open time, and the close time equals the sunset
plus the configured dusk offset; the configured offsets include a negative
one (`DAWN_OFFSET = -1800` seconds), so the property holds with negative
offsets. -/
theorem getSuntimes_clamp_spec (wd : Fin 7) (sr ss : Int) :
    GetSuntimes wd sr ss =
      (max (sr + DAWN_OFFSET) (earliestOpenSecs wd), ss + DUSK_OFFSET) ∧
    earliestOpenSecs wd ≤ (GetSuntimes wd sr ss).1 ∧
    sr + DAWN_OFFSET ≤ (GetSuntimes wd sr ss).1 ∧
    DAWN_OFFSET < 0 ∧ 0 < DUSK_OFFSET := by
  by_cases hc : sr + DAWN_OFFSET < earliestOpenSecs wd <;>
    refine ⟨?_, ?_, ?_, by decide, by decide⟩ <;>
      simp [GetSuntimes, hc, Prod.ext_iff] <;> omega

/-- C6: the claim (with the spec and `tests/test_sunrise.py`, which asserts
minute-by-minute consistency on the DST-transition days 2018-03-25 and
2018-10-28) states that `sunrise.getSunTimes` depends only on the calendar
date of the query, never on its time-of-day.  The code computes the DST flag
from the *full* query timestamp via `time.mktime`/`time.localtime`, so on a
DST-transition day two query times on the same date yield results shifted
against each other by one hour — for every value of the (abstracted)
trigonometric day-length term.  Failing input: 2018-03-25 at 01:00 vs 05:00,
system timezone Europe/Berlin. -/
theorem getSunTimes_dst_shift_bug (diffSecs : Nat → Int) :
    getSunTimes ⟨2018, 3, 25, 1, 0⟩ berlinIsDst2018 diffSecs ≠
      getSunTimes ⟨2018, 3, 25, 5, 0⟩ berlinIsDst2018 diffSecs ∧
    (getSunTimes ⟨2018, 3, 25, 5, 0⟩ berlinIsDst2018 diffSecs).1 =
      (getSunTimes ⟨2018, 3, 25, 1, 0⟩ berlinIsDst2018 diffSecs).1 + 3600 := by
  have h1 : berlinIsDst2018 ⟨2018, 3, 25, 1, 0⟩ = false := by decide
  have h2 : berlinIsDst2018 ⟨2018, 3, 25, 5, 0⟩ = true := by decide
  have h3 : dayOfYear ⟨2018, 3, 25, 1, 0⟩ = 84 := by decide
  have h4 : dayOfYear ⟨2018, 3, 25, 5, 0⟩ = 84 := by decide
  constructor
  · intro hEq
    have hfst := congrArg Prod.fst hEq
    simp [getSunTimes, h1, h2, h3, h4, DAWN_OFFSET] at hfst
  · simp [getSunTimes, h1, h2, h3, h4, DAWN_OFFSET]
    omega

end ChickenGuard
